import Mathlib

/-!
Verification development for the libkineto dynamic-configuration subsystem
(ConfigLoader.cpp, libkineto_api.cpp). The C++ code is shallowly embedded as
pure Lean functions: the scheduler loop becomes explicit state passing, time
is a Nat clock, and file / daemon / signal inputs are supplied per iteration.
The Config value type itself lives outside the given sources, so its
operations are modelled from the spec where noted.
-/

namespace Kineto

/-- Result of running the (external) Config grammar parser on one text.
Modelled from the spec: the Config option parser is an external collaborator;
only the fields the scheduler inspects are represented. -/
structure ParseResult where
  verboseLogLevel : Int
  verboseLogModules : List (String × Int)
  sigUsr2Enabled : Bool
  eventProfilerOnDemandStartTime : Nat
  eventProfilerOnDemandEndTime : Nat
  eventProfilerRequested : Bool
  activityProfilerRequested : Bool
  deriving Repr, DecidableEq

/-- Config snapshot. Modelled from the spec: the Config class is not among
the given sources; these are the attributes the spec lists (timestamp, raw
source text, verbose level and modules, sigUsr2Enabled, the on-demand event
window, the activity request-received stamp) plus the two request flags the
scheduler queries through eventProfilerRequest / activityProfilerRequest. -/
structure Config where
  timestamp : Nat
  source : String
  verboseLogLevel : Int
  verboseLogModules : List (String × Int)
  sigUsr2Enabled : Bool
  eventProfilerOnDemandStartTime : Nat
  eventProfilerOnDemandEndTime : Nat
  activityProfilerRequestReceivedTime : Nat
  eventProfilerRequested : Bool
  activityProfilerRequested : Bool
  deriving Repr, DecidableEq

/-- A freshly constructed Config(). Modelled from the spec: fields that the
on-demand file may omit default to "not specified" (verbose level negative,
empty window, no requests). -/
def Config.mk0 : Config :=
  { timestamp := 0
    source := ""
    verboseLogLevel := -1
    verboseLogModules := []
    sigUsr2Enabled := false
    eventProfilerOnDemandStartTime := 0
    eventProfilerOnDemandEndTime := 0
    activityProfilerRequestReceivedTime := 0
    eventProfilerRequested := false
    activityProfilerRequested := false }

/-- The external parser and signal-defaults hook, passed as an environment.
Modelled from the spec: the textual grammar is out of scope, so parseFn is
an arbitrary total function from text to parsed fields, and
signalDefaultsFn is the setSignalDefaults operation (fills in defaults for
fields a signal-triggered file may omit). -/
structure ParseEnv where
  parseFn : String → ParseResult
  signalDefaultsFn : Config → Config

/-- Config::parse. Modelled from the spec: populates the option fields from
the text, records the raw text as source (used for change detection) and
stamps the parse time as the snapshot timestamp. The request-received stamp
is not part of the grammar and is kept. -/
def Config.parse (env : ParseEnv) (t : Nat) (text : String) (c : Config) : Config :=
  let r := env.parseFn text
  { timestamp := t
    source := text
    verboseLogLevel := r.verboseLogLevel
    verboseLogModules := r.verboseLogModules
    sigUsr2Enabled := r.sigUsr2Enabled
    eventProfilerOnDemandStartTime := r.eventProfilerOnDemandStartTime
    eventProfilerOnDemandEndTime := r.eventProfilerOnDemandEndTime
    activityProfilerRequestReceivedTime := c.activityProfilerRequestReceivedTime
    eventProfilerRequested := r.eventProfilerRequested
    activityProfilerRequested := r.activityProfilerRequested }

/-- Config::clone. Modelled from the spec: a new independent Config copying
all fields; object identity (the fresh heap cell) is tracked at the slot
level (see Slot and ConfigLoaderState.nextId). -/
def Config.clone (c : Config) : Config := c

/-- Config::updateActivityProfilerRequestReceivedTime. Modelled from the
spec: stamps "now" into the config that will become the active on-demand
activity config. -/
def Config.updateActivityProfilerRequestReceivedTime (now : Nat) (c : Config) : Config :=
  { c with activityProfilerRequestReceivedTime := now }

/-- eventProfilerRequest(config), queried by ConfigLoader. Modelled from the
spec: whether the parsed config carries an event-profiler sub-request. -/
def eventProfilerRequest (c : Config) : Bool := c.eventProfilerRequested

/-- activityProfilerRequest(config), queried by ConfigLoader. Modelled from
the spec: whether the parsed config carries an activity-profiler
sub-request. -/
def activityProfilerRequest (c : Config) : Bool := c.activityProfilerRequested

/-- A published snapshot slot: the Config value together with the identity
of the heap object holding it. updateBaseConfig reconstructs the base
config in place (same storage, so same id); clone() allocates a fresh id. -/
structure Slot where
  id : Nat
  val : Config
  deriving Repr, DecidableEq

/-- A SIGUSR2 handler as seen by sigaction: empty, the bridge handler
handle_signal, or some foreign handler installed by the host. -/
inductive Handler where
  | none : Handler
  | bridge : Handler
  | foreign : Nat → Handler
  deriving Repr, DecidableEq

/-- The process signal-disposition state: the currently installed SIGUSR2
handler and the saved originalUsr2Handler global. -/
structure SigState where
  current : Handler
  original : Handler
  deriving Repr, DecidableEq

/-- hasOriginalSignalHandler(): the saved handler is non-empty. -/
def hasOriginalSignalHandler (s : SigState) : Bool := s.original ≠ Handler.none

/-- setupSignalHandler(enableSigUsr2): install the bridge handler saving the
previous one (normalising a saved bridge to none), or restore the saved
handler when disabling. -/
def setupSignalHandler (enableSigUsr2 : Bool) (s : SigState) : SigState :=
  if enableSigUsr2 then
    let s' : SigState := { current := Handler.bridge, original := s.current }
    if s'.original = Handler.bridge then { s' with original := Handler.none } else s'
  else if hasOriginalSignalHandler s then
    { current := s.original, original := Handler.none }
  else s

/-- DaemonConfigLoader: the optional out-of-process config source, with its
two operations readOnDemandConfig(events, activities) and
gpuContextCount(device). -/
structure DaemonConfigLoader where
  readOnDemandConfig : Bool → Bool → String
  gpuContextCount : Nat → Int

/-- ConfigLoader state: the three snapshot slots (base = config_, the
on-demand event and activity slots), the busy / pending-signal / stop
flags, the optional daemon loader, the signal-disposition state and the
allocation counter for fresh snapshot identities. -/
structure ConfigLoaderState where
  config : Slot
  onDemandEventProfilerConfig : Slot
  onDemandActivityProfilerConfig : Slot
  activityProfilerBusy : Bool
  onDemandSignal : Bool
  stopFlag : Bool
  daemonConfigLoader : Option DaemonConfigLoader
  sig : SigState
  nextId : Nat

/-- Allocate a fresh snapshot holding the clone of c (config.clone()). -/
def allocClone (c : Config) (st : ConfigLoaderState) : Slot × ConfigLoaderState :=
  ({ id := st.nextId, val := Config.clone c }, { st with nextId := st.nextId + 1 })

/-- ConfigLoader::handleOnDemandSignal: sets the pending flag (and wakes the
scheduler; the wake itself is represented by the iteration schedule). -/
def handleOnDemandSignal (st : ConfigLoaderState) : ConfigLoaderState :=
  { st with onDemandSignal := true }

/-- ConfigLoader::setActivityProfilerBusy. -/
def setActivityProfilerBusy (busy : Bool) (st : ConfigLoaderState) : ConfigLoaderState :=
  { st with activityProfilerBusy := busy }

/-- ConfigLoader::readOnDemandConfigFromDaemon: empty string with no daemon
loader; otherwise queries it with events = now past the on-demand event
window end, activities = profiler not busy. -/
def readOnDemandConfigFromDaemon (now : Nat) (st : ConfigLoaderState) : String :=
  match st.daemonConfigLoader with
  | Option.none => ""
  | Option.some d =>
    let events := decide
      (now > st.onDemandEventProfilerConfig.val.eventProfilerOnDemandEndTime)
    let activities := !st.activityProfilerBusy
    d.readOnDemandConfig events activities

/-- ConfigLoader::contextCountForGpu: zero with no daemon loader, else
forwards to it. -/
def contextCountForGpu (device : Nat) (st : ConfigLoaderState) : Int :=
  match st.daemonConfigLoader with
  | Option.none => 0
  | Option.some d => d.gpuContextCount device

/-- ConfigLoader::hasNewConfig: current base snapshot timestamp strictly
newer than the reference's. -/
def hasNewConfig (oldConfig : Config) (st : ConfigLoaderState) : Bool :=
  decide (st.config.val.timestamp > oldConfig.timestamp)

/-- ConfigLoader::hasNewEventProfilerOnDemandConfig. -/
def hasNewEventProfilerOnDemandConfig (oldConfig : Config) (st : ConfigLoaderState) : Bool :=
  decide (st.onDemandEventProfilerConfig.val.eventProfilerOnDemandStartTime >
    oldConfig.eventProfilerOnDemandStartTime)

/-- ConfigLoader::hasNewActivityProfilerOnDemandConfig. -/
def hasNewActivityProfilerOnDemandConfig (oldConfig : Config) (st : ConfigLoaderState) : Bool :=
  decide (st.onDemandActivityProfilerConfig.val.activityProfilerRequestReceivedTime >
    oldConfig.activityProfilerRequestReceivedTime)

/-- ConfigLoader::updateBaseConfig: re-read the base file; when the raw text
differs from the held snapshot source, destroy the base config in place and
reconstruct it at the same storage (the slot id is unchanged), then parse
the new text; finally re-apply the signal-handler decision. -/
def updateBaseConfig (env : ParseEnv) (fileContents : String) (now : Nat)
    (st : ConfigLoaderState) : ConfigLoaderState :=
  let config_str := fileContents
  let st :=
    if config_str ≠ st.config.val.source then
      { st with config :=
          { id := st.config.id
            val := Config.parse env now config_str Config.mk0 } }
    else st
  { st with sig := setupSignalHandler st.config.val.sigUsr2Enabled st.sig }

/-- Acceptance record of one configureFromSignal call: which sub-requests
were accepted into their slots and which were dropped and reported
(the LOG(ERROR) busy branches). -/
structure SignalOutcome where
  eventAccepted : Bool
  eventDroppedBusy : Bool
  activityAccepted : Bool
  activityDroppedBusy : Bool
  deriving Repr, DecidableEq

/-- ConfigLoader::configureFromSignal: read and parse the on-demand file
into the working config (a clone of base), fill signal defaults; accept the
event sub-request only when now is past the held on-demand event window
end, else drop it; stamp the request-received time (a trace is initiated by
default) and accept the activity sub-request only when the activity
profiler is not busy, else drop it. Returns the updated slots, the working
config (mutated through the reference in C++) and the acceptance record. -/
def configureFromSignal (env : ParseEnv) (onDemandFileContents : String) (now : Nat)
    (config : Config) (st : ConfigLoaderState) :
    ConfigLoaderState × Config × SignalOutcome :=
  let config := Config.parse env now onDemandFileContents config
  let config := env.signalDefaultsFn config
  let evStep : ConfigLoaderState × Bool × Bool :=
    if eventProfilerRequest config then
      if now > st.onDemandEventProfilerConfig.val.eventProfilerOnDemandEndTime then
        let (slot, st') := allocClone config st
        ({ st' with onDemandEventProfilerConfig := slot }, true, false)
      else (st, false, true)
    else (st, false, false)
  let st := evStep.1
  let config := Config.updateActivityProfilerRequestReceivedTime now config
  let acStep : ConfigLoaderState × Bool × Bool :=
    if !st.activityProfilerBusy then
      let (slot, st') := allocClone config st
      ({ st' with onDemandActivityProfilerConfig := slot }, true, false)
    else (st, false, true)
  (acStep.1, config,
    { eventAccepted := evStep.2.1
      eventDroppedBusy := evStep.2.2
      activityAccepted := acStep.2.1
      activityDroppedBusy := acStep.2.2 })

/-- ConfigLoader::configureFromDaemon: query the daemon (readOnDemandConfigFromDaemon),
parse the response into the working config, then accept the event override
and, independently, the activity override, each exactly when the parsed
config requests it. -/
def configureFromDaemon (env : ParseEnv) (now : Nat) (config : Config)
    (st : ConfigLoaderState) : ConfigLoaderState × Config :=
  let config_str := readOnDemandConfigFromDaemon now st
  let config := Config.parse env now config_str config
  let st :=
    if eventProfilerRequest config then
      let (slot, st') := allocClone config st
      { st' with onDemandEventProfilerConfig := slot }
    else st
  let st :=
    if activityProfilerRequest config then
      let (slot, st') := allocClone config st
      { st' with onDemandActivityProfilerConfig := slot }
    else st
  (st, config)

/-- kConfigUpdateIntervalSecs. -/
def kConfigUpdateIntervalSecs : Nat := 300

/-- kOnDemandConfigUpdateIntervalSecs. -/
def kOnDemandConfigUpdateIntervalSecs : Nat := 5

/-- kOnDemandConfigVerboseLogDurationSecs. -/
def kOnDemandConfigVerboseLogDurationSecs : Nat := 120

/-- State of the updateConfigThread loop: the shared loader state, the loop
locals (the three deadlines and the working on-demand config) and the
logger level installed by SET_VERBOSE_LOG_LEVEL. -/
structure SchedState where
  loader : ConfigLoaderState
  nextConfigLoadTime : Nat
  nextOnDemandLoadTime : Nat
  nextLogLevelResetTime : Nat
  onDemandConfig : Config
  logLevel : Int
  logModules : List (String × Int)

/-- External input of one wake of the scheduler: the clock reading, the
current contents of the two files, whether a SIGUSR2 arrived during the
wait, and whether the destructor requested stop during the wait. -/
structure IterInput where
  now : Nat
  baseFileContents : String
  onDemandFileContents : String
  signalDelivered : Bool
  stopRequested : Bool

/-- What one scheduler iteration did on its on-demand arbitration step. -/
structure IterTrace where
  tookSignalPath : Bool
  queriedDaemonPath : Bool
  signalOutcome : Option SignalOutcome
  deriving Repr, DecidableEq

/-- Base-reload phase of one updateConfigThread iteration: reload the base
config when its deadline passed and reschedule the deadline. -/
def baseReloadStep (env : ParseEnv) (inp : IterInput) (s : SchedState) : SchedState :=
  if inp.now > s.nextConfigLoadTime then
    { s with loader := updateBaseConfig env inp.baseFileContents inp.now s.loader,
             nextConfigLoadTime := inp.now + kConfigUpdateIntervalSecs }
  else s

/-- On-demand arbitration phase: the read-and-clear exchange of the
pending-signal flag; when it was set, take the signal path from a clone of
the current base snapshot; else take the daemon path when its deadline
passed, rescheduling that deadline. -/
def arbitrationStep (env : ParseEnv) (inp : IterInput) (s : SchedState) :
    SchedState × IterTrace :=
  let pending := s.loader.onDemandSignal
  let s := { s with loader := { s.loader with onDemandSignal := false } }
  if pending then
    let onDemand := Config.clone s.loader.config.val
    let r := configureFromSignal env inp.onDemandFileContents inp.now onDemand s.loader
    ({ s with loader := r.1, onDemandConfig := r.2.1 },
     { tookSignalPath := true, queriedDaemonPath := false,
       signalOutcome := Option.some r.2.2 })
  else if inp.now > s.nextOnDemandLoadTime then
    let r := configureFromDaemon env inp.now s.onDemandConfig s.loader
    ({ s with loader := r.1, onDemandConfig := r.2,
              nextOnDemandLoadTime := inp.now + kOnDemandConfigUpdateIntervalSecs },
     { tookSignalPath := false, queriedDaemonPath := true,
       signalOutcome := Option.none })
  else
    (s, { tookSignalPath := false, queriedDaemonPath := false,
          signalOutcome := Option.none })

/-- Verbose-override phase: when the working on-demand config specifies a
non-negative level, apply it and re-arm the single expiry timer to
now + kOnDemandConfigVerboseLogDurationSecs; then, once now has passed the
timer, reset the logger to the base snapshot's level and modules. -/
def verboseStep (now : Nat) (s : SchedState) : SchedState :=
  let s :=
    if s.onDemandConfig.verboseLogLevel ≥ 0 then
      { s with logLevel := s.onDemandConfig.verboseLogLevel,
               logModules := s.onDemandConfig.verboseLogModules,
               nextLogLevelResetTime := now + kOnDemandConfigVerboseLogDurationSecs }
    else s
  if now > s.nextLogLevelResetTime then
    { s with logLevel := s.loader.config.val.verboseLogLevel,
             logModules := s.loader.config.val.verboseLogModules }
  else s

/-- One iteration body of ConfigLoader::updateConfigThread after the wait
and the stop check: base reload when due; read-and-clear exchange of the
pending-signal flag; signal path (from a clone of the current base) when
the flag was set, else daemon path when due; then the verbose override
apply / re-arm and the expiry reset. -/
def schedIteration (env : ParseEnv) (inp : IterInput) (s : SchedState) :
    SchedState × IterTrace :=
  let s := baseReloadStep env inp s
  let r := arbitrationStep env inp s
  (verboseStep inp.now r.1, r.2)

/-- Effects delivered while the scheduler was in its wait: the signal
handler sets the pending flag, the destructor sets the stop flag (both also
notify, which is the wake itself). -/
def deliverInputFlags (inp : IterInput) (s : SchedState) : SchedState :=
  let s :=
    if inp.signalDelivered then { s with loader := handleOnDemandSignal s.loader } else s
  if inp.stopRequested then { s with loader := { s.loader with stopFlag := true } } else s

/-- The updateConfigThread loop over a finite schedule of wakes: each wake
delivers its flags, checks stopFlag immediately after the wait (exiting the
loop when set), else runs one iteration body. Returns the final state and
the number of iteration bodies executed. -/
def runThread (env : ParseEnv) : List IterInput → SchedState → SchedState × Nat
  | [], s => (s, 0)
  | inp :: rest, s =>
    let s := deliverInputFlags inp s
    if s.loader.stopFlag then (s, 0)
    else
      let s' := (schedIteration env inp s).1
      let r := runThread env rest s'
      (r.1, r.2 + 1)

/-- The destructor's stop request: sets stopFlag (the notify that follows
is the wake delivered to the loop). -/
def destructorStop (s : SchedState) : SchedState :=
  { s with loader := { s.loader with stopFlag := true } }

/-- A C++ exception escaping the constructor. -/
inductive CppException where
  | badFunctionCall
  deriving Repr, DecidableEq

/-- The condition of the factory check in the ConfigLoader constructor. The
C++ condition is the name daemonConfigLoaderFactory — a static function —
whose implicit conversion to bool tests the function's address, which is
never null; it does not test the std::function object the accessor
returns. The condition is therefore constantly true. -/
def daemonConfigLoaderFactoryAddressNonNull : Bool := true

/-- The ConfigLoader constructor: parse the base file, install the initial
verbose level and signal handler, and run the daemon-factory check: since
the check tests a function address (see
daemonConfigLoaderFactoryAddressNonNull) it always proceeds to invoke the
registered std::function; invoking it with no factory registered (an empty
std::function) throws bad_function_call. -/
def mkConfigLoader (env : ParseEnv)
    (registeredFactory : Option (Unit → DaemonConfigLoader))
    (t0 : Nat) (baseFileContents : String) (sig0 : SigState) :
    Except CppException ConfigLoaderState :=
  let config := Config.parse env t0 baseFileContents Config.mk0
  let daemonE : Except CppException (Option DaemonConfigLoader) :=
    if daemonConfigLoaderFactoryAddressNonNull then
      match registeredFactory with
      | Option.some f => Except.ok (Option.some (f ()))
      | Option.none => Except.error CppException.badFunctionCall
    else Except.ok Option.none
  match daemonE with
  | Except.error e => Except.error e
  | Except.ok dl =>
    Except.ok
      { config := { id := 0, val := config }
        onDemandEventProfilerConfig := { id := 1, val := Config.mk0 }
        onDemandActivityProfilerConfig := { id := 2, val := Config.mk0 }
        activityProfilerBusy := false
        onDemandSignal := false
        stopFlag := false
        daemonConfigLoader := dl
        sig := setupSignalHandler config.sigUsr2Enabled sig0
        nextId := 3 }

/-- The loop locals as initialised at the top of updateConfigThread, with
the logger level as the constructor left it. -/
def initialSchedState (t0 : Nat) (loader : ConfigLoaderState) : SchedState :=
  { loader := loader
    nextConfigLoadTime := t0 + kConfigUpdateIntervalSecs
    nextOnDemandLoadTime := t0 + kOnDemandConfigUpdateIntervalSecs
    nextLogLevelResetTime := t0
    onDemandConfig := Config.mk0
    logLevel := loader.config.val.verboseLogLevel
    logModules := loader.config.val.verboseLogModules }

/-- LibkinetoApi state: the registered client, the activity profiler (both
as optional opaque handles) and the thread that last called
registerClient. -/
structure LibkinetoApi where
  client : Option Nat
  activityProfiler : Option Nat
  clientRegisterThread : Nat
  deriving Repr, DecidableEq

/-- Observable result of LibkinetoApi::initClientIfRegistered. -/
inductive InitOutcome where
  | noClient
  | threadMismatchError
  | initCalled
  deriving Repr, DecidableEq

/-- LibkinetoApi::initClientIfRegistered, run on thread self: with a
registered client, reports an error when self differs from the thread that
registered the client, else calls client init; with no client, does
nothing. -/
def initClientIfRegistered (self : Nat) (api : LibkinetoApi) : InitOutcome :=
  match api.client with
  | Option.none => InitOutcome.noClient
  | Option.some _ =>
    if api.clientRegisterThread ≠ self then InitOutcome.threadMismatchError
    else InitOutcome.initCalled

/-- LibkinetoApi::registerClient, called from thread self: store the
client, call init immediately exactly when both the client and the
activity profiler are present, and record self as the registering
thread. Returns the new state and whether init was called. -/
def registerClient (client : Option Nat) (self : Nat) (api : LibkinetoApi) :
    LibkinetoApi × Bool :=
  let api := { api with client := client }
  let initCalled := client.isSome && api.activityProfiler.isSome
  let api := { api with clientRegisterThread := self }
  (api, initCalled)

/-! Concrete fixtures used by witnesses and counterexamples. -/

/-- A fixed parse result used by the test environment. -/
def testParse : ParseResult :=
  { verboseLogLevel := 2
    verboseLogModules := [("all", 1)]
    sigUsr2Enabled := false
    eventProfilerOnDemandStartTime := 100
    eventProfilerOnDemandEndTime := 160
    eventProfilerRequested := true
    activityProfilerRequested := true }

/-- A test parse environment: every text parses to testParse and signal
defaults change nothing. -/
def testEnv : ParseEnv :=
  { parseFn := fun _ => testParse, signalDefaultsFn := fun c => c }

/-- Empty SIGUSR2 disposition. -/
def sigNone : SigState := { current := Handler.none, original := Handler.none }

/-- A concrete base snapshot. -/
def baseConfig0 : Config := { Config.mk0 with timestamp := 1, source := "base" }

/-- A concrete loader state with no daemon loader. -/
def testLoader : ConfigLoaderState :=
  { config := { id := 0, val := baseConfig0 }
    onDemandEventProfilerConfig := { id := 1, val := Config.mk0 }
    onDemandActivityProfilerConfig := { id := 2, val := Config.mk0 }
    activityProfilerBusy := false
    onDemandSignal := false
    stopFlag := false
    daemonConfigLoader := Option.none
    sig := sigNone
    nextId := 3 }

/-- A concrete daemon loader answering a fixed text. -/
def testDaemon : DaemonConfigLoader :=
  { readOnDemandConfig := fun _ _ => "daemon", gpuContextCount := fun _ => 4 }

/-- testLoader with the daemon loader attached. -/
def testLoaderD : ConfigLoaderState :=
  { testLoader with daemonConfigLoader := Option.some testDaemon }

/-! Claims. -/

/-- C10: LibkinetoApi::initClientIfRegistered calls the registered client
init only when a client is registered and the calling thread equals the
thread that most recently called registerClient; on a mismatch it reports
an error and does not initialise; registerClient itself calls init
immediately exactly when both a non-null client and an activity profiler
are present, and records the calling thread as the registering thread. -/
theorem C10_init_client_thread_guard (api : LibkinetoApi) (self : Nat) :
    (initClientIfRegistered self api = InitOutcome.initCalled ↔
      api.client.isSome = true ∧ api.clientRegisterThread = self) ∧
    (api.client.isSome = true → api.clientRegisterThread ≠ self →
      initClientIfRegistered self api = InitOutcome.threadMismatchError) ∧
    (api.client = Option.none →
      initClientIfRegistered self api = InitOutcome.noClient) ∧
    (∀ (c : Option Nat) (t : Nat),
      ((registerClient c t api).2 = true ↔
        c.isSome = true ∧ api.activityProfiler.isSome = true) ∧
      (registerClient c t api).1.clientRegisterThread = t ∧
      (registerClient c t api).1.client = c) := by
  refine ⟨?_, ?_, ?_, ?_⟩
  · cases h : api.client with
    | none => simp [initClientIfRegistered, h]
    | some c =>
      simp only [initClientIfRegistered, h, Option.isSome_some, true_and]
      by_cases ht : api.clientRegisterThread = self <;> simp [ht]
  · intro hc ht
    cases h : api.client with
    | none => rw [h] at hc; simp at hc
    | some c => simp [initClientIfRegistered, h, ht]
  · intro h; simp [initClientIfRegistered, h]
  · intro c t
    refine ⟨?_, rfl, rfl⟩
    simp [registerClient, Bool.and_eq_true]

/-- C10 witness: a concrete registered client initialised from the
registering thread, and a concrete mismatched thread reporting an error. -/
theorem C10_init_client_thread_guard_witness :
    initClientIfRegistered 7
      { client := Option.some 1, activityProfiler := Option.some 2,
        clientRegisterThread := 7 } = InitOutcome.initCalled ∧
    initClientIfRegistered 8
      { client := Option.some 1, activityProfiler := Option.some 2,
        clientRegisterThread := 7 } = InitOutcome.threadMismatchError := by
  constructor
  · exact (C10_init_client_thread_guard
      { client := Option.some 1, activityProfiler := Option.some 2,
        clientRegisterThread := 7 } 7).1.mpr (by constructor <;> rfl)
  · exact (C10_init_client_thread_guard
      { client := Option.some 1, activityProfiler := Option.some 2,
        clientRegisterThread := 7 } 8).2.1 rfl (by decide)

/-- C4: with no daemon-config-loader factory registered before first
access, the constructor does not proceed without a daemon source: the
factory check tests the address of the accessor function (always non-null)
and then invokes the empty std::function, so construction throws
bad_function_call instead of succeeding. The neutral daemon-dependent
behaviours the claim describes do hold for a state whose daemon loader is
absent: readOnDemandConfigFromDaemon yields the empty string and
contextCountForGpu yields zero. -/
theorem C4_no_factory_constructor_throws :
    mkConfigLoader testEnv Option.none 0 "" sigNone =
      Except.error CppException.badFunctionCall ∧
    readOnDemandConfigFromDaemon 5 testLoader = "" ∧
    contextCountForGpu 9 testLoader = 0 := by
  refine ⟨rfl, rfl, rfl⟩

/-- C5: a signal-triggered event-profiler sub-request is accepted — the
on-demand event slot is assigned a clone of the new config (a fresh
snapshot) — exactly when the current time is past the held on-demand event
snapshot's end time; otherwise it is dropped and reported as busy and the
held slot (identity and value) is preserved unchanged, with no queueing. -/
theorem C5_event_signal_gating (env : ParseEnv) (txt : String) (now : Nat)
    (config : Config) (st : ConfigLoaderState)
    (hreq : eventProfilerRequest
      (env.signalDefaultsFn (Config.parse env now txt config)) = true) :
    (now > st.onDemandEventProfilerConfig.val.eventProfilerOnDemandEndTime →
      (configureFromSignal env txt now config st).1.onDemandEventProfilerConfig =
        { id := st.nextId
          val := Config.clone
            (env.signalDefaultsFn (Config.parse env now txt config)) } ∧
      (configureFromSignal env txt now config st).2.2.eventAccepted = true) ∧
    (¬ now > st.onDemandEventProfilerConfig.val.eventProfilerOnDemandEndTime →
      (configureFromSignal env txt now config st).1.onDemandEventProfilerConfig =
        st.onDemandEventProfilerConfig ∧
      (configureFromSignal env txt now config st).2.2.eventAccepted = false ∧
      (configureFromSignal env txt now config st).2.2.eventDroppedBusy = true) := by
  constructor
  · intro hw
    cases hb : st.activityProfilerBusy <;>
      simp [configureFromSignal, allocClone, hreq, hw, hb]
  · intro hw
    cases hb : st.activityProfilerBusy <;>
      simp [configureFromSignal, allocClone, hreq, hw, hb]

/-- C5 witness: with the test environment at time 30 (past the initial
empty window's end time 0) the event sub-request is accepted into a fresh
slot. -/
theorem C5_event_signal_gating_witness :
    (configureFromSignal testEnv "x" 30 Config.mk0 testLoader).1.onDemandEventProfilerConfig =
      { id := testLoader.nextId
        val := Config.clone
          (testEnv.signalDefaultsFn (Config.parse testEnv 30 "x" Config.mk0)) } ∧
    (configureFromSignal testEnv "x" 30 Config.mk0 testLoader).2.2.eventAccepted = true :=
  (C5_event_signal_gating testEnv "x" 30 Config.mk0 testLoader rfl).1 (by decide)

/-- C6: a signal-triggered request always implies an activity sub-request:
the request-received time is stamped with now unconditionally (no
activity-request flag is consulted); the on-demand activity slot is
assigned a clone of the stamped config exactly when activityProfilerBusy is
false, and while the flag is true the request is dropped and reported and
the held slot is preserved; after the flag is set false a subsequent
signal-triggered request is accepted. -/
theorem C6_activity_signal_implied (env : ParseEnv) (txt : String) (now : Nat)
    (config : Config) (st : ConfigLoaderState) :
    (configureFromSignal env txt now config st).2.1.activityProfilerRequestReceivedTime
      = now ∧
    (st.activityProfilerBusy = false →
      (configureFromSignal env txt now config st).1.onDemandActivityProfilerConfig.val =
        Config.clone (Config.updateActivityProfilerRequestReceivedTime now
          (env.signalDefaultsFn (Config.parse env now txt config))) ∧
      (configureFromSignal env txt now config st).2.2.activityAccepted = true) ∧
    (st.activityProfilerBusy = true →
      (configureFromSignal env txt now config st).1.onDemandActivityProfilerConfig =
        st.onDemandActivityProfilerConfig ∧
      (configureFromSignal env txt now config st).2.2.activityAccepted = false ∧
      (configureFromSignal env txt now config st).2.2.activityDroppedBusy = true) ∧
    (configureFromSignal env txt now config
        (setActivityProfilerBusy false st)).2.2.activityAccepted = true := by
  refine ⟨?_, ?_, ?_, ?_⟩
  · cases hreq : eventProfilerRequest
        (env.signalDefaultsFn (Config.parse env now txt config)) <;>
      by_cases hw : now >
        st.onDemandEventProfilerConfig.val.eventProfilerOnDemandEndTime <;>
      cases hb : st.activityProfilerBusy <;>
      simp [configureFromSignal, allocClone, hreq, hw, hb,
        Config.updateActivityProfilerRequestReceivedTime]
  · intro hb
    cases hreq : eventProfilerRequest
        (env.signalDefaultsFn (Config.parse env now txt config)) <;>
      by_cases hw : now >
        st.onDemandEventProfilerConfig.val.eventProfilerOnDemandEndTime <;>
      simp [configureFromSignal, allocClone, hreq, hw, hb]
  · intro hb
    cases hreq : eventProfilerRequest
        (env.signalDefaultsFn (Config.parse env now txt config)) <;>
      by_cases hw : now >
        st.onDemandEventProfilerConfig.val.eventProfilerOnDemandEndTime <;>
      simp [configureFromSignal, allocClone, hreq, hw, hb]
  · cases hreq : eventProfilerRequest
        (env.signalDefaultsFn (Config.parse env now txt config)) <;>
      by_cases hw : now >
        st.onDemandEventProfilerConfig.val.eventProfilerOnDemandEndTime <;>
      simp [configureFromSignal, allocClone, setActivityProfilerBusy, hreq, hw]

/-- C6 witness: at concrete inputs with the profiler free, the working
config is stamped with now = 30 and the activity sub-request is accepted. -/
theorem C6_activity_signal_implied_witness :
    (configureFromSignal testEnv "x" 30 Config.mk0 testLoader).2.1.activityProfilerRequestReceivedTime
      = 30 ∧
    (configureFromSignal testEnv "x" 30 Config.mk0 testLoader).2.2.activityAccepted = true :=
  ⟨(C6_activity_signal_implied testEnv "x" 30 Config.mk0 testLoader).1,
   ((C6_activity_signal_implied testEnv "x" 30 Config.mk0 testLoader).2.1 rfl).2⟩

/-- C7: a daemon poll queries the daemon with exactly two flags — whether
now is past the held on-demand event snapshot's end time and whether the
activity profiler is free — and applies the parsed response with the
event-profiler and activity-profiler overrides accepted independently:
each slot is replaced by a clone of the parsed config exactly when its own
request flag is set, with no condition on the other flag. -/
theorem C7_daemon_poll_independent (env : ParseEnv) (now : Nat)
    (config : Config) (st : ConfigLoaderState) (d : DaemonConfigLoader)
    (hd : st.daemonConfigLoader = Option.some d) :
    readOnDemandConfigFromDaemon now st =
      d.readOnDemandConfig
        (decide (now > st.onDemandEventProfilerConfig.val.eventProfilerOnDemandEndTime))
        (!st.activityProfilerBusy) ∧
    (eventProfilerRequest
        (Config.parse env now (readOnDemandConfigFromDaemon now st) config) = true →
      (configureFromDaemon env now config st).1.onDemandEventProfilerConfig.val =
        Config.clone
          (Config.parse env now (readOnDemandConfigFromDaemon now st) config)) ∧
    (eventProfilerRequest
        (Config.parse env now (readOnDemandConfigFromDaemon now st) config) = false →
      (configureFromDaemon env now config st).1.onDemandEventProfilerConfig =
        st.onDemandEventProfilerConfig) ∧
    (activityProfilerRequest
        (Config.parse env now (readOnDemandConfigFromDaemon now st) config) = true →
      (configureFromDaemon env now config st).1.onDemandActivityProfilerConfig.val =
        Config.clone
          (Config.parse env now (readOnDemandConfigFromDaemon now st) config)) ∧
    (activityProfilerRequest
        (Config.parse env now (readOnDemandConfigFromDaemon now st) config) = false →
      (configureFromDaemon env now config st).1.onDemandActivityProfilerConfig =
        st.onDemandActivityProfilerConfig) := by
  refine ⟨?_, ?_, ?_, ?_, ?_⟩
  · simp [readOnDemandConfigFromDaemon, hd]
  all_goals
    intro h
    cases hev : eventProfilerRequest
        (Config.parse env now (readOnDemandConfigFromDaemon now st) config) <;>
      cases hac : activityProfilerRequest
        (Config.parse env now (readOnDemandConfigFromDaemon now st) config) <;>
      simp_all [configureFromDaemon, allocClone]

/-- C7 witness: with the attached test daemon (both request flags parse to
true) the query flags are events = true, activities = true, and both
overrides are accepted. -/
theorem C7_daemon_poll_independent_witness :
    readOnDemandConfigFromDaemon 30 testLoaderD =
      testDaemon.readOnDemandConfig
        (decide (30 > testLoaderD.onDemandEventProfilerConfig.val.eventProfilerOnDemandEndTime))
        (!testLoaderD.activityProfilerBusy) ∧
    (configureFromDaemon testEnv 30 Config.mk0 testLoaderD).1.onDemandEventProfilerConfig.val =
      Config.clone
        (Config.parse testEnv 30 (readOnDemandConfigFromDaemon 30 testLoaderD) Config.mk0) ∧
    (configureFromDaemon testEnv 30 Config.mk0 testLoaderD).1.onDemandActivityProfilerConfig.val =
      Config.clone
        (Config.parse testEnv 30 (readOnDemandConfigFromDaemon 30 testLoaderD) Config.mk0) :=
  ⟨(C7_daemon_poll_independent testEnv 30 Config.mk0 testLoaderD testDaemon rfl).1,
   (C7_daemon_poll_independent testEnv 30 Config.mk0 testLoaderD testDaemon rfl).2.1 rfl,
   (C7_daemon_poll_independent testEnv 30 Config.mk0 testLoaderD testDaemon rfl).2.2.2.1 rfl⟩

/-! Helper lemmas about the iteration phases. -/

theorem schedIteration_fst (env : ParseEnv) (inp : IterInput) (s : SchedState) :
    (schedIteration env inp s).1 =
      verboseStep inp.now (arbitrationStep env inp (baseReloadStep env inp s)).1 := rfl

theorem schedIteration_snd (env : ParseEnv) (inp : IterInput) (s : SchedState) :
    (schedIteration env inp s).2 =
      (arbitrationStep env inp (baseReloadStep env inp s)).2 := rfl

theorem verboseStep_onDemandConfig (now : Nat) (s : SchedState) :
    (verboseStep now s).onDemandConfig = s.onDemandConfig := by
  simp only [verboseStep]
  split <;> split <;> rfl

theorem verboseStep_loader (now : Nat) (s : SchedState) :
    (verboseStep now s).loader = s.loader := by
  simp only [verboseStep]
  split <;> split <;> rfl

theorem baseReloadStep_nextLogLevelResetTime (env : ParseEnv) (inp : IterInput)
    (s : SchedState) :
    (baseReloadStep env inp s).nextLogLevelResetTime = s.nextLogLevelResetTime := by
  simp only [baseReloadStep]
  split <;> rfl

theorem baseReloadStep_onDemandSignal (env : ParseEnv) (inp : IterInput)
    (s : SchedState) :
    (baseReloadStep env inp s).loader.onDemandSignal = s.loader.onDemandSignal := by
  simp only [baseReloadStep]
  split
  · simp only [updateBaseConfig]
    split <;> rfl
  · rfl

theorem configureFromSignal_onDemandSignal (env : ParseEnv) (txt : String)
    (now : Nat) (config : Config) (st : ConfigLoaderState) :
    (configureFromSignal env txt now config st).1.onDemandSignal = st.onDemandSignal := by
  cases hreq : eventProfilerRequest
      (env.signalDefaultsFn (Config.parse env now txt config)) <;>
    by_cases hw : now >
      st.onDemandEventProfilerConfig.val.eventProfilerOnDemandEndTime <;>
    cases hb : st.activityProfilerBusy <;>
    simp [configureFromSignal, allocClone, hreq, hw, hb]

theorem configureFromDaemon_onDemandSignal (env : ParseEnv) (now : Nat)
    (config : Config) (st : ConfigLoaderState) :
    (configureFromDaemon env now config st).1.onDemandSignal = st.onDemandSignal := by
  cases hev : eventProfilerRequest
      (Config.parse env now (readOnDemandConfigFromDaemon now st) config) <;>
    cases hac : activityProfilerRequest
      (Config.parse env now (readOnDemandConfigFromDaemon now st) config) <;>
    simp [configureFromDaemon, allocClone, hev, hac]

theorem arbitrationStep_nextLogLevelResetTime (env : ParseEnv) (inp : IterInput)
    (s : SchedState) :
    (arbitrationStep env inp s).1.nextLogLevelResetTime = s.nextLogLevelResetTime := by
  simp only [arbitrationStep]
  split
  · rfl
  · split <;> rfl

theorem arbitrationStep_signal_consumed (env : ParseEnv) (inp : IterInput)
    (s : SchedState) :
    (arbitrationStep env inp s).1.loader.onDemandSignal = false := by
  simp only [arbitrationStep]
  split
  · exact configureFromSignal_onDemandSignal ..
  · split
    · exact configureFromDaemon_onDemandSignal ..
    · rfl

/-- Characterisation of the verbose-override phase in isolation. -/
theorem verboseStep_spec (now : Nat) (s : SchedState) :
    (s.onDemandConfig.verboseLogLevel ≥ 0 →
      (verboseStep now s).logLevel = s.onDemandConfig.verboseLogLevel ∧
      (verboseStep now s).logModules = s.onDemandConfig.verboseLogModules ∧
      (verboseStep now s).nextLogLevelResetTime =
        now + kOnDemandConfigVerboseLogDurationSecs) ∧
    (s.onDemandConfig.verboseLogLevel < 0 → now > s.nextLogLevelResetTime →
      (verboseStep now s).logLevel = s.loader.config.val.verboseLogLevel ∧
      (verboseStep now s).logModules = s.loader.config.val.verboseLogModules) := by
  constructor
  · intro h
    have hlt : ¬ now > now + kOnDemandConfigVerboseLogDurationSecs := by omega
    simp [verboseStep, h, hlt]
  · intro h h2
    have h' : ¬ s.onDemandConfig.verboseLogLevel ≥ 0 := by omega
    simp [verboseStep, h', h2]

/-- C2 counterexample: the claim that a slot update never edits an existing
snapshot in place fails on the base slot: updateBaseConfig with changed
file content replaces the fields of the base snapshot while keeping the
same object identity (the C++ destroys the Config and placement-news a new
one at the same storage). -/
theorem C2_counterexample_base_in_place :
    (updateBaseConfig testEnv "new" 50 testLoader).config.val ≠ testLoader.config.val ∧
    (updateBaseConfig testEnv "new" 50 testLoader).config.id = testLoader.config.id :=
  ⟨by decide, rfl⟩

/-- C2 amended: the on-demand slots are only ever replaced by freshly
allocated clones (never edited in place), and neither on-demand path
touches the base slot; the base slot, however, is updated by
destroy-and-reconstruct in place: its object identity is always preserved,
and its value is preserved exactly when the file content is unchanged. -/
theorem C2_amended_snapshot_discipline (env : ParseEnv) (contents txt : String)
    (now : Nat) (config : Config) (st : ConfigLoaderState) :
    (updateBaseConfig env contents now st).config.id = st.config.id ∧
    (contents = st.config.val.source →
      (updateBaseConfig env contents now st).config = st.config) ∧
    (configureFromSignal env txt now config st).1.config = st.config ∧
    ((configureFromSignal env txt now config st).1.onDemandEventProfilerConfig =
        st.onDemandEventProfilerConfig ∨
      (configureFromSignal env txt now config st).1.onDemandEventProfilerConfig.id ≥
        st.nextId) ∧
    ((configureFromSignal env txt now config st).1.onDemandActivityProfilerConfig =
        st.onDemandActivityProfilerConfig ∨
      (configureFromSignal env txt now config st).1.onDemandActivityProfilerConfig.id ≥
        st.nextId) ∧
    (configureFromDaemon env now config st).1.config = st.config ∧
    ((configureFromDaemon env now config st).1.onDemandEventProfilerConfig =
        st.onDemandEventProfilerConfig ∨
      (configureFromDaemon env now config st).1.onDemandEventProfilerConfig.id ≥
        st.nextId) ∧
    ((configureFromDaemon env now config st).1.onDemandActivityProfilerConfig =
        st.onDemandActivityProfilerConfig ∨
      (configureFromDaemon env now config st).1.onDemandActivityProfilerConfig.id ≥
        st.nextId) := by
  refine ⟨?_, ?_, ?_, ?_, ?_, ?_, ?_, ?_⟩
  · simp only [updateBaseConfig]
    split <;> rfl
  · intro h
    simp [updateBaseConfig, h]
  all_goals
    cases hreq : eventProfilerRequest
        (env.signalDefaultsFn (Config.parse env now txt config)) <;>
    cases hev : eventProfilerRequest
        (Config.parse env now (readOnDemandConfigFromDaemon now st) config) <;>
    cases hac : activityProfilerRequest
        (Config.parse env now (readOnDemandConfigFromDaemon now st) config) <;>
    by_cases hw : now >
      st.onDemandEventProfilerConfig.val.eventProfilerOnDemandEndTime <;>
    cases hb : st.activityProfilerBusy <;>
    simp [configureFromSignal, configureFromDaemon, allocClone, hreq, hev, hac, hw, hb]

/-- C2 amended witness: with unchanged content the base slot is preserved
verbatim. -/
theorem C2_amended_snapshot_discipline_witness :
    ("base" = testLoader.config.val.source) ∧
    (updateBaseConfig testEnv "base" 50 testLoader).config = testLoader.config :=
  ⟨rfl,
   (C2_amended_snapshot_discipline testEnv "base" "x" 50 Config.mk0 testLoader).2.1 rfl⟩

/-- Loop-local state fixture: the scheduler as entered at time 0 over
testLoader. -/
def testSched : SchedState := initialSchedState 0 testLoader

/-- A wake at time 3 with no signal, no stop and no deadlines due. -/
def testInp : IterInput :=
  { now := 3, baseFileContents := "base", onDemandFileContents := "od",
    signalDelivered := false, stopRequested := false }

/-- C8: whenever the working on-demand snapshot of an iteration specifies a
non-negative verbose level, the iteration applies that level and its
modules and re-arms the single expiry timer to now plus the override
duration; when the snapshot's level is negative and now has passed the
armed expiry, the iteration resets verbosity to the base snapshot's level
and modules. -/
theorem C8_verbose_override_timer (env : ParseEnv) (inp : IterInput) (s : SchedState) :
    ((schedIteration env inp s).1.onDemandConfig.verboseLogLevel ≥ 0 →
      (schedIteration env inp s).1.logLevel =
        (schedIteration env inp s).1.onDemandConfig.verboseLogLevel ∧
      (schedIteration env inp s).1.logModules =
        (schedIteration env inp s).1.onDemandConfig.verboseLogModules ∧
      (schedIteration env inp s).1.nextLogLevelResetTime =
        inp.now + kOnDemandConfigVerboseLogDurationSecs) ∧
    ((schedIteration env inp s).1.onDemandConfig.verboseLogLevel < 0 →
      inp.now > s.nextLogLevelResetTime →
      (schedIteration env inp s).1.logLevel =
        (schedIteration env inp s).1.loader.config.val.verboseLogLevel ∧
      (schedIteration env inp s).1.logModules =
        (schedIteration env inp s).1.loader.config.val.verboseLogModules) := by
  have hod := verboseStep_onDemandConfig inp.now
    (arbitrationStep env inp (baseReloadStep env inp s)).1
  have hld := verboseStep_loader inp.now
    (arbitrationStep env inp (baseReloadStep env inp s)).1
  have htm : (arbitrationStep env inp (baseReloadStep env inp s)).1.nextLogLevelResetTime
      = s.nextLogLevelResetTime := by
    rw [arbitrationStep_nextLogLevelResetTime, baseReloadStep_nextLogLevelResetTime]
  have hspec := verboseStep_spec inp.now
    (arbitrationStep env inp (baseReloadStep env inp s)).1
  constructor
  · intro h
    rw [schedIteration_fst] at h ⊢
    rw [hod] at h ⊢
    exact hspec.1 h
  · intro h h2
    rw [schedIteration_fst] at h ⊢
    rw [hod] at h
    rw [hld]
    rw [← htm] at h2
    exact hspec.2 h h2

/-- C8 witness: at a wake where the working on-demand snapshot has a
negative level and the expiry has passed, the logger is reset to the base
snapshot's level and modules. -/
theorem C8_verbose_override_timer_witness :
    ((schedIteration testEnv testInp testSched).1.onDemandConfig.verboseLogLevel < 0) ∧
    ((schedIteration testEnv testInp testSched).1.logLevel =
      (schedIteration testEnv testInp testSched).1.loader.config.val.verboseLogLevel) :=
  ⟨by decide,
   ((C8_verbose_override_timer testEnv testInp testSched).2 (by decide) (by decide)).1⟩

theorem configureFromSignal_config_out (env : ParseEnv) (txt : String) (now : Nat)
    (c : Config) (st : ConfigLoaderState) :
    (configureFromSignal env txt now c st).2.1 =
      Config.updateActivityProfilerRequestReceivedTime now
        (env.signalDefaultsFn (Config.parse env now txt c)) := by
  cases hreq : eventProfilerRequest
      (env.signalDefaultsFn (Config.parse env now txt c)) <;>
    by_cases hw : now >
      st.onDemandEventProfilerConfig.val.eventProfilerOnDemandEndTime <;>
    cases hb : st.activityProfilerBusy <;>
    simp [configureFromSignal, allocClone, hreq, hw, hb]

theorem configureFromSignal_baseSlot (env : ParseEnv) (txt : String) (now : Nat)
    (c : Config) (st : ConfigLoaderState) :
    (configureFromSignal env txt now c st).1.config = st.config := by
  cases hreq : eventProfilerRequest
      (env.signalDefaultsFn (Config.parse env now txt c)) <;>
    by_cases hw : now >
      st.onDemandEventProfilerConfig.val.eventProfilerOnDemandEndTime <;>
    cases hb : st.activityProfilerBusy <;>
    simp [configureFromSignal, allocClone, hreq, hw, hb]

theorem arbitrationStep_tookSignalPath (env : ParseEnv) (inp : IterInput)
    (s : SchedState) :
    (arbitrationStep env inp s).2.tookSignalPath = s.loader.onDemandSignal := by
  simp only [arbitrationStep]
  split
  · next h => simp [h]
  · next h =>
    simp only [Bool.not_eq_true] at h
    split <;> simp [h]

theorem arbitrationStep_queriedDaemon_of_pending (env : ParseEnv) (inp : IterInput)
    (s : SchedState) (h : s.loader.onDemandSignal = true) :
    (arbitrationStep env inp s).2.queriedDaemonPath = false := by
  simp [arbitrationStep, h]

theorem schedIteration_signal_consumed (env : ParseEnv) (inp : IterInput)
    (s : SchedState) :
    (schedIteration env inp s).1.loader.onDemandSignal = false := by
  rw [schedIteration_fst, verboseStep_loader, arbitrationStep_signal_consumed]

theorem schedIteration_tookSignalPath (env : ParseEnv) (inp : IterInput)
    (s : SchedState) :
    (schedIteration env inp s).2.tookSignalPath = s.loader.onDemandSignal := by
  rw [schedIteration_snd, arbitrationStep_tookSignalPath, baseReloadStep_onDemandSignal]

/-- testSched with a pending on-demand signal. -/
def sigSched : SchedState :=
  { testSched with loader := handleOnDemandSignal testSched.loader }

/-- C1: an iteration that finds the pending-signal flag set takes the
signal path and not the daemon path, consumes the flag (the read-and-clear
exchange leaves it false), and its working on-demand config is built from
a clone of that iteration's base snapshot (parse of the on-demand file
over the clone, signal defaults, request-received stamp); a request
arriving after the clear is not lost: without redelivery the next
iteration takes no signal path (exactly one iteration consumes each
request), and with the flag set again the next iteration takes the signal
path. -/
theorem C1_signal_flag_exchange (env : ParseEnv) (inp inp2 : IterInput)
    (s : SchedState) (hpend : s.loader.onDemandSignal = true) :
    (schedIteration env inp s).2.tookSignalPath = true ∧
    (schedIteration env inp s).2.queriedDaemonPath = false ∧
    (schedIteration env inp s).1.loader.onDemandSignal = false ∧
    (schedIteration env inp s).1.onDemandConfig =
      Config.updateActivityProfilerRequestReceivedTime inp.now
        (env.signalDefaultsFn
          (Config.parse env inp.now inp.onDemandFileContents
            (Config.clone (schedIteration env inp s).1.loader.config.val))) ∧
    (schedIteration env inp2 (schedIteration env inp s).1).2.tookSignalPath = false ∧
    (schedIteration env inp2
      { (schedIteration env inp s).1 with
        loader := handleOnDemandSignal (schedIteration env inp s).1.loader }).2.tookSignalPath
      = true := by
  have hpend2 : (baseReloadStep env inp s).loader.onDemandSignal = true := by
    rw [baseReloadStep_onDemandSignal]; exact hpend
  refine ⟨?_, ?_, ?_, ?_, ?_, ?_⟩
  · rw [schedIteration_tookSignalPath]; exact hpend
  · rw [schedIteration_snd]
    exact arbitrationStep_queriedDaemon_of_pending env inp _ hpend2
  · exact schedIteration_signal_consumed env inp s
  · rw [schedIteration_fst, verboseStep_onDemandConfig, verboseStep_loader]
    simp only [arbitrationStep, hpend2, if_true]
    rw [configureFromSignal_config_out, configureFromSignal_baseSlot]
  · rw [schedIteration_tookSignalPath, schedIteration_signal_consumed]
  · rw [schedIteration_tookSignalPath]; rfl

/-- C1 witness: from a concrete state with the flag set, the iteration
takes the signal path and leaves the flag cleared. -/
theorem C1_signal_flag_exchange_witness :
    (schedIteration testEnv testInp sigSched).2.tookSignalPath = true ∧
    (schedIteration testEnv testInp sigSched).1.loader.onDemandSignal = false :=
  ⟨(C1_signal_flag_exchange testEnv testInp testInp sigSched rfl).1,
   (C1_signal_flag_exchange testEnv testInp testInp sigSched rfl).2.2.1⟩

theorem deliverInputFlags_stopFlag (inp : IterInput) (s : SchedState) :
    (deliverInputFlags inp s).loader.stopFlag =
      (s.loader.stopFlag || inp.stopRequested) := by
  cases hsig : inp.signalDelivered <;> cases hstop : inp.stopRequested <;>
    simp [deliverInputFlags, handleOnDemandSignal, hsig, hstop]

/-- C9: shutdown latency is one wake, not the interval: after the
destructor sets the stop flag and wakes the scheduler, the loop — which
checks the stop flag immediately after its wait, once per wake — exits at
that very wake with zero further iteration bodies executed, regardless of
how many wakes the schedule still holds; likewise a stop request delivered
during any wait makes that wake the exit point. -/
theorem C9_shutdown_within_one_wake (env : ParseEnv) (inp : IterInput)
    (rest : List IterInput) (s : SchedState) :
    (runThread env (inp :: rest) (destructorStop s) =
      (deliverInputFlags inp (destructorStop s), 0)) ∧
    (inp.stopRequested = true →
      runThread env (inp :: rest) s = (deliverInputFlags inp s, 0)) := by
  constructor
  · have h : (deliverInputFlags inp (destructorStop s)).loader.stopFlag = true := by
      rw [deliverInputFlags_stopFlag]; simp [destructorStop]
    simp [runThread, h]
  · intro hstop
    have h : (deliverInputFlags inp s).loader.stopFlag = true := by
      rw [deliverInputFlags_stopFlag, hstop]; simp
    simp [runThread, h]

/-- A wake carrying a stop request. -/
def stopInp : IterInput := { testInp with stopRequested := true }

/-- C9 witness: a stop delivered at a concrete wake exits the loop there
with zero iterations executed. -/
theorem C9_shutdown_within_one_wake_witness :
    runThread testEnv [stopInp] testSched = (deliverInputFlags stopInp testSched, 0) :=
  (C9_shutdown_within_one_wake testEnv stopInp [] testSched).2 rfl

theorem updateBaseConfig_config_of_eq (env : ParseEnv) (c : String) (now : Nat)
    (st : ConfigLoaderState) (h : c = st.config.val.source) :
    (updateBaseConfig env c now st).config = st.config := by
  simp [updateBaseConfig, h]

theorem updateBaseConfig_config_of_ne (env : ParseEnv) (c : String) (now : Nat)
    (st : ConfigLoaderState) (h : ¬ c = st.config.val.source) :
    (updateBaseConfig env c now st).config =
      { id := st.config.id, val := Config.parse env now c Config.mk0 } := by
  simp [updateBaseConfig, h]

/-- A reader polling protocol over a sequence of base-file polls: at each
(time, contents) poll the scheduler runs updateBaseConfig, the reader asks
hasNewConfig against the snapshot it last pulled and pulls the current
base snapshot when the answer is true. Returns the per-poll answers. -/
def pollObservations (env : ParseEnv) :
    List (Nat × String) → ConfigLoaderState → Config → List Bool
  | [], _, _ => []
  | p :: rest, st, ref =>
    hasNewConfig ref (updateBaseConfig env p.2 p.1 st) ::
      pollObservations env rest (updateBaseConfig env p.2 p.1 st)
        (if hasNewConfig ref (updateBaseConfig env p.2 p.1 st) = true
          then (updateBaseConfig env p.2 p.1 st).config.val else ref)

/-- The distinct content changes observed at the polls: at each poll,
whether the raw text differs from the source of the held snapshot. -/
def contentChanges : List (Nat × String) → String → List Bool
  | [], _ => []
  | p :: rest, src =>
    decide (p.2 ≠ src) :: contentChanges rest (if p.2 ≠ src then p.2 else src)

/-- Over strictly increasing poll times that postdate the held base
snapshot, the reader protocol observes true exactly at the polls whose
content differs from the held source. -/
theorem pollObservations_spec (env : ParseEnv) (polls : List (Nat × String)) :
    ∀ st : ConfigLoaderState,
      (polls.map Prod.fst).Pairwise (· < ·) →
      (∀ p ∈ polls, st.config.val.timestamp < p.1) →
      pollObservations env polls st st.config.val =
        contentChanges polls st.config.val.source := by
  induction polls with
  | nil => intro st _ _; rfl
  | cons p rest ih =>
    obtain ⟨t, txt⟩ := p
    intro st hpw hlt
    simp only [List.map_cons, List.pairwise_cons] at hpw
    obtain ⟨hhd, htl⟩ := hpw
    by_cases hc : txt = st.config.val.source
    · have hcfg := updateBaseConfig_config_of_eq env txt t st hc
      have hval : (updateBaseConfig env txt t st).config.val = st.config.val := by
        rw [hcfg]
      have hb : hasNewConfig st.config.val (updateBaseConfig env txt t st) = false := by
        simp [hasNewConfig, hval]
      have hne : ¬ (txt ≠ st.config.val.source) := by simp [hc]
      simp only [pollObservations, contentChanges]
      rw [hb, decide_eq_false hne, if_neg (by simp : ¬ (false = true)), if_neg hne]
      congr 1
      rw [← hval]
      exact ih (updateBaseConfig env txt t st) htl
        (by intro q hq; rw [hval]; exact hlt q (List.mem_cons_of_mem _ hq))
    · have hcfg := updateBaseConfig_config_of_ne env txt t st hc
      have hval : (updateBaseConfig env txt t st).config.val =
          Config.parse env t txt Config.mk0 := by rw [hcfg]
      have hts : (updateBaseConfig env txt t st).config.val.timestamp = t := by
        rw [hval]; rfl
      have hsrc : (updateBaseConfig env txt t st).config.val.source = txt := by
        rw [hval]; rfl
      have hb : hasNewConfig st.config.val (updateBaseConfig env txt t st) = true := by
        simp only [hasNewConfig, hts, decide_eq_true_eq]
        exact hlt (t, txt) (List.mem_cons_self _ _)
      simp only [pollObservations, contentChanges]
      rw [hb, decide_eq_true hc, if_pos rfl, if_pos hc]
      congr 1
      have hrec := ih (updateBaseConfig env txt t st) htl
        (by
          intro q hq
          rw [hts]
          exact hhd q.1 (List.mem_map_of_mem _ hq))
      rw [hrec, hsrc]

/-- C3: hasNewConfig(reference) is true exactly when the current base
snapshot's timestamp is strictly newer than the reference's; consequently,
over any sequence of base-file polls with increasing times a reader that
pulls the snapshot on each true answer observes true exactly once per
distinct content change at a poll and false whenever the content is
unchanged (the base slot is only replaced when the raw text differs from
the held snapshot's source). -/
theorem C3_hasNewConfig_change_detection :
    (∀ (st : ConfigLoaderState) (old : Config),
      hasNewConfig old st = true ↔ st.config.val.timestamp > old.timestamp) ∧
    (∀ (env : ParseEnv) (polls : List (Nat × String)) (st : ConfigLoaderState),
      (polls.map Prod.fst).Pairwise (· < ·) →
      (∀ p ∈ polls, st.config.val.timestamp < p.1) →
      pollObservations env polls st st.config.val =
        contentChanges polls st.config.val.source) := by
  constructor
  · intro st old
    simp [hasNewConfig]
  · intro env polls st hpw hlt
    exact pollObservations_spec env polls st hpw hlt

/-- C3 witness: at the concrete polls (10,"a"), (20,"a"), (30,"b") over the
test loader (source "base"), the observations are true, false, true — one
true per distinct content change. -/
theorem C3_hasNewConfig_change_detection_witness :
    pollObservations testEnv [(10, "a"), (20, "a"), (30, "b")] testLoader
        testLoader.config.val =
      contentChanges [(10, "a"), (20, "a"), (30, "b")] testLoader.config.val.source ∧
    contentChanges [(10, "a"), (20, "a"), (30, "b")] testLoader.config.val.source =
      [true, false, true] :=
  ⟨C3_hasNewConfig_change_detection.2 testEnv [(10, "a"), (20, "a"), (30, "b")]
      testLoader (by decide) (by decide),
   by decide⟩

end Kineto
